import Mathlib

/-!
Shallow embedding of the Keephy Plans service (`src/index.js`): the Plan
document schema, the Mongo-backed store, and the six HTTP handlers
(list, get-by-id, create, update, soft-delete, features projection).

Conventions of the embedding:
* JS numbers are rationals (`ℚ`); timestamps are `Nat` milliseconds and the
  wall-clock reading is passed explicitly to the handlers that consult it.
* A Mongoose document field that may be unset is an `Option`.
* `findById` on a string that does not cast to an ObjectId throws a
  `CastError`; the embedding returns `Except.error ()` there, which each
  handler's `catch` turns into a 500 response, exactly as in the source.
* The PUT handler builds an update document that lists every destructured
  body key, so a key whose body field is absent carries `undefined` and the
  write unsets that stored field (the full-replace behaviour the service is
  documented with); `createdAt` is not part of the update document and is
  preserved, while `updatedAt` is set to the current time.
-/

namespace KeephyPlans

/-- One entry of the `features` array of the schema (lines 46-51). -/
structure Feature where
  name : Option String
  included : Option Bool
  limit : Option ℚ
  description : Option String
deriving DecidableEq, Repr

/-- The `limits` subdocument of the schema (lines 52-59); each field may be
unset before defaults apply. -/
structure Limits where
  franchises : Option ℚ
  forms : Option ℚ
  submissions : Option ℚ
  staff : Option ℚ
  storage : Option ℚ
  apiCalls : Option ℚ
deriving DecidableEq, Repr

/-- The empty `limits` object `{}`. -/
def Limits.empty : Limits := ⟨none, none, none, none, none, none⟩

/-- Mongoose fills each missing `limits` subfield with its schema default
(franchises 1, forms 5, submissions 100, staff 5, storage 1024, apiCalls
1000), independently of the others. -/
def Limits.applyDefaults (l : Limits) : Limits :=
  ⟨some (l.franchises.getD 1), some (l.forms.getD 5), some (l.submissions.getD 100),
   some (l.staff.getD 5), some (l.storage.getD 1024), some (l.apiCalls.getD 1000)⟩

/-- The documented default `limits` record. -/
def Limits.defaults : Limits :=
  ⟨some 1, some 5, some 100, some 5, some 1024, some 1000⟩

/-- A stored Plan document (schema lines 36-67). `id` is the Mongo `_id`. -/
structure Plan where
  id : String
  name : Option String
  description : Option String
  price : Option ℚ
  currency : Option String
  interval : Option String
  features : Option (List Feature)
  limits : Option Limits
  stripePriceId : Option String
  stripeProductId : Option String
  isActive : Option Bool
  isPopular : Option Bool
  sortOrder : Option ℚ
  createdAt : Nat
  updatedAt : Nat
deriving DecidableEq, Repr

/-- The plans collection. -/
abbrev Store := List Plan

/-- Hex digit, as ObjectId casting accepts. -/
def isHexChar (c : Char) : Bool :=
  c.isDigit || (decide (97 ≤ c.toNat) && decide (c.toNat ≤ 102)) ||
    (decide (65 ≤ c.toNat) && decide (c.toNat ≤ 70))

/-- A request id casts to an ObjectId iff it is a 24-character hex string or
any 12-character string; every other id makes the query throw a `CastError`. -/
def isValidObjectId (s : String) : Bool :=
  (s.data.length == 24 && s.data.all isHexChar) || s.data.length == 12

/-- Lookup by `_id` in the collection. -/
def findPlan (store : Store) (id : String) : Option Plan :=
  store.find? (fun p => p.id == id)

/-- Mongoose `Model.findById`: throws (`Except.error`) on an id that does not
cast to an ObjectId, otherwise returns the lookup result. -/
def findById (store : Store) (id : String) : Except Unit (Option Plan) :=
  if isValidObjectId id then .ok (findPlan store id) else .error ()

/-- Persisting a fetched-and-modified document (`doc.save()`) or the write of
`findByIdAndUpdate`: the first stored document with the same `_id` is
replaced. -/
def saveDoc (store : Store) (p : Plan) : Store :=
  match store with
  | [] => [p]
  | q :: rest => if q.id == p.id then p :: rest else q :: saveDoc rest p

/-- The `data` payload of a response envelope. -/
inductive Payload where
  | plan : Plan → Payload
  | plans : List Plan → Payload
  | featuresLimits : Option (List Feature) → Option Limits → Payload
deriving DecidableEq, Repr

/-- An HTTP response: status code plus the JSON envelope fields the handlers
emit (`success`, and whichever of `data`, `count`, `message`, `error` the
handler sets). -/
structure Response where
  status : Nat
  success : Bool
  data : Option Payload
  count : Option Nat
  message : Option String
  error : Option String
deriving DecidableEq, Repr

/-- The query filter of GET `/api/plans` (lines 95-97): a filter key is added
only when the query parameter is exactly the string "true". -/
def listFilter (active popular : Option String) (p : Plan) : Bool :=
  (!(active == some "true") || p.isActive == some true) &&
  (!(popular == some "true") || p.isPopular == some true)

/-- Ascending comparison of an optional numeric field, as Mongo sorts: a
missing value sorts before every number. -/
def keyLE : Option ℚ → Option ℚ → Prop
  | none, _ => True
  | some _, none => False
  | some a, some b => a ≤ b

/-- Strict version of `keyLE`. -/
def keyLT : Option ℚ → Option ℚ → Prop
  | none, none => False
  | none, some _ => True
  | some _, none => False
  | some a, some b => a < b

instance : DecidableRel keyLE := fun a b =>
  match a, b with
  | none, _ => isTrue trivial
  | some _, none => isFalse id
  | some a, some b => inferInstanceAs (Decidable (a ≤ b))

instance : DecidableRel keyLT := fun a b =>
  match a, b with
  | none, none => isFalse id
  | none, some _ => isTrue trivial
  | some _, none => isFalse id
  | some a, some b => inferInstanceAs (Decidable (a < b))

/-- The sort order of `.sort({ sortOrder: 1, price: 1 })` (line 100):
`sortOrder` ascending, ties broken by `price` ascending. -/
def planLE (p q : Plan) : Prop :=
  keyLT p.sortOrder q.sortOrder ∨ (p.sortOrder = q.sortOrder ∧ keyLE p.price q.price)

instance : DecidableRel planLE := fun p q =>
  inferInstanceAs (Decidable (keyLT p.sortOrder q.sortOrder ∨
    (p.sortOrder = q.sortOrder ∧ keyLE p.price q.price)))

/-- GET `/api/plans` (lines 91-114): filter, sort, answer 200 with the list
and its length. -/
def listPlans (store : Store) (active popular : Option String) : Response :=
  ⟨200, true, some (.plans (List.insertionSort planLE (store.filter (listFilter active popular)))),
   some (List.insertionSort planLE (store.filter (listFilter active popular))).length,
   none, none⟩

/-- GET `/api/plans/:id` (lines 117-139): 500 on a cast error, 404 when no
document matches, otherwise 200 with the document. -/
def getPlanById (store : Store) (id : String) : Response :=
  match findById store id with
  | .error _ => ⟨500, false, none, none, none, some "Failed to fetch plan"⟩
  | .ok none => ⟨404, false, none, none, none, some "Plan not found"⟩
  | .ok (some p) => ⟨200, true, some (.plan p), none, none, none⟩

/-- The request body as the POST and PUT handlers destructure it (the POST
handler does not read `isActive`; the PUT handler does). -/
structure PlanBody where
  name : Option String
  description : Option String
  price : Option ℚ
  currency : Option String
  interval : Option String
  features : Option (List Feature)
  limits : Option Limits
  stripePriceId : Option String
  stripeProductId : Option String
  isActive : Option Bool
  isPopular : Option Bool
  sortOrder : Option ℚ
deriving DecidableEq, Repr

/-- A body with no field supplied. -/
def PlanBody.empty : PlanBody :=
  ⟨none, none, none, none, none, none, none, none, none, none, none, none⟩

/-- JS `x || d` on an optional string field: absent or empty ("" is falsy)
falls back to the default. -/
def strOr (o : Option String) (d : String) : String :=
  match o with
  | some s => if s == "" then d else s
  | none => d

/-- The `interval` enum of the schema (lines 41-45). -/
def validIntervals : List String := ["monthly", "yearly", "lifetime"]

/-- JS truthiness of the body's `name`: absent and the empty string are
falsy, so `!name` rejects both. -/
def nameTruthy (o : Option String) : Bool :=
  match o with
  | some s => !(s == "")
  | none => false

/-- The document `new Plan(...)` builds from a valid POST body (lines
165-177): `||`-defaults applied by the handler, schema defaults for the
`limits` subfields and for `isActive` (the handler does not pass `isActive`),
and both timestamps set to the current time. -/
def mkCreated (b : PlanBody) (now : Nat) (newId : String) : Plan :=
  ⟨newId, b.name, b.description, b.price, some (strOr b.currency "USD"),
   some (strOr b.interval "monthly"), some (b.features.getD []),
   some (Limits.applyDefaults (b.limits.getD Limits.empty)),
   b.stripePriceId, b.stripeProductId, some true,
   some (b.isPopular.getD false), some (b.sortOrder.getD 0), now, now⟩

/-- POST `/api/plans` (lines 142-192): reject with 400 when `!name` or
`price === undefined`; otherwise build the document (schema defaults for
`limits` subfields and `isActive`), save it — a `save()` validation failure,
e.g. an `interval` outside the enum, is caught as 500 — and answer 201 with
the new document. Returns the response and the collection afterwards. -/
def createPlan (store : Store) (b : PlanBody) (now : Nat) (newId : String) :
    Response × Store :=
  if !nameTruthy b.name || b.price.isNone then
    (⟨400, false, none, none, none, some "Plan name and price are required"⟩, store)
  else
    if !(validIntervals.contains (strOr b.interval "monthly")) then
      (⟨500, false, none, none, none, some "Failed to create plan"⟩, store)
    else
      (⟨201, true, some (.plan (mkCreated b now newId)), none, none, none⟩,
        store ++ [mkCreated b now newId])

/-- The update document of PUT `/api/plans/:id` (lines 212-228) applied to a
stored document: every destructured body key overwrites the stored field (an
absent body field unsets it), `updatedAt` is set to the current time and
`createdAt` is not listed, hence preserved. -/
def applyUpdate (p : Plan) (b : PlanBody) (now : Nat) : Plan :=
  ⟨p.id, b.name, b.description, b.price, b.currency, b.interval, b.features,
   b.limits, b.stripePriceId, b.stripeProductId, b.isActive, b.isPopular,
   b.sortOrder, p.createdAt, now⟩

/-- PUT `/api/plans/:id` (lines 195-250): 500 on a cast error, 404 when the
id resolves to nothing, otherwise write the update document and answer 200
with the post-update record. -/
def updatePlan (store : Store) (id : String) (b : PlanBody) (now : Nat) :
    Response × Store :=
  match findById store id with
  | .error _ => (⟨500, false, none, none, none, some "Failed to update plan"⟩, store)
  | .ok none => (⟨404, false, none, none, none, some "Plan not found"⟩, store)
  | .ok (some p) =>
      (⟨200, true, some (.plan (applyUpdate p b now)), none, none, none⟩,
        saveDoc store (applyUpdate p b now))

/-- Mongoose document validation, as `doc.save()` runs it
(`validateBeforeSave` is on by default and validates the whole document):
`name` is required and, being a String, the required validator also fails on
the empty string; `price` is required; the `interval` enum is checked when
the field is set (validators other than `required` skip unset fields).
`findByIdAndUpdate` runs no validators (`runValidators` defaults to false),
so the PUT handler can store documents that fail this. -/
def validDoc (p : Plan) : Bool :=
  nameTruthy p.name && p.price.isSome &&
  (match p.interval with
   | some s => validIntervals.contains s
   | none => true)

/-- DELETE `/api/plans/:id` (lines 253-279): 500 on a cast error, 404 when
the id resolves to nothing; otherwise set `isActive` to false and
`plan.save()`. The save validates the whole document, so for a record
invalidated through the validator-skipping PUT (required `name`/`price`
unset, or `interval` outside the enum) the `ValidationError` rejects the
`await`, the catch answers 500 and nothing is written; otherwise the record
persists and the handler answers 200 with a message (and no `data`). No
other field is touched. -/
def deletePlan (store : Store) (id : String) : Response × Store :=
  match findById store id with
  | .error _ => (⟨500, false, none, none, none, some "Failed to delete plan"⟩, store)
  | .ok none => (⟨404, false, none, none, none, some "Plan not found"⟩, store)
  | .ok (some p) =>
      if validDoc { p with isActive := some false } then
        (⟨200, true, none, none, some "Plan deleted successfully", none⟩,
          saveDoc store { p with isActive := some false })
      else
        (⟨500, false, none, none, none, some "Failed to delete plan"⟩, store)

/-- GET `/api/plans/:id/features` (lines 282-307): 500 on a cast error, 404
when the id resolves to nothing, otherwise 200 with the `features`/`limits`
projection. -/
def getPlanFeatures (store : Store) (id : String) : Response :=
  match findById store id with
  | .error _ => ⟨500, false, none, none, none, some "Failed to fetch plan features"⟩
  | .ok none => ⟨404, false, none, none, none, some "Plan not found"⟩
  | .ok (some p) => ⟨200, true, some (.featuresLimits p.features p.limits), none, none, none⟩

/-! ### Order lemmas for the list sort -/

theorem keyLE_refl (a : Option ℚ) : keyLE a a := by
  cases a with
  | none => trivial
  | some a => exact le_refl a

theorem keyLE_of_keyLT {a b : Option ℚ} (h : keyLT a b) : keyLE a b := by
  cases a with
  | none => trivial
  | some a => cases b with
    | none => exact h
    | some b => exact le_of_lt h

theorem keyLT_irrefl (a : Option ℚ) : ¬ keyLT a a := by
  cases a with
  | none => exact id
  | some a => exact lt_irrefl a

theorem keyLT_trichotomy (a b : Option ℚ) : keyLT a b ∨ a = b ∨ keyLT b a := by
  cases a with
  | none => cases b with
    | none => exact Or.inr (Or.inl rfl)
    | some b => exact Or.inl trivial
  | some a => cases b with
    | none => exact Or.inr (Or.inr trivial)
    | some b =>
      rcases lt_trichotomy a b with h | h | h
      · exact Or.inl h
      · exact Or.inr (Or.inl (by rw [h]))
      · exact Or.inr (Or.inr h)

theorem keyLE_total (a b : Option ℚ) : keyLE a b ∨ keyLE b a := by
  cases a with
  | none => exact Or.inl trivial
  | some a => cases b with
    | none => exact Or.inr trivial
    | some b => exact le_total a b

theorem keyLT_trans {a b c : Option ℚ} (h1 : keyLT a b) (h2 : keyLT b c) : keyLT a c := by
  cases a with
  | none => cases c with
    | none => cases b with
      | none => exact h1
      | some b => exact h2
    | some c => trivial
  | some a => cases b with
    | none => exact h1.elim
    | some b => cases c with
      | none => exact h2
      | some c => exact lt_trans h1 h2

theorem keyLE_trans {a b c : Option ℚ} (h1 : keyLE a b) (h2 : keyLE b c) : keyLE a c := by
  cases a with
  | none => trivial
  | some a => cases b with
    | none => exact h1.elim
    | some b => cases c with
      | none => exact h2
      | some c => exact le_trans h1 h2

instance : IsTotal Plan planLE := by
  constructor
  intro p q
  rcases keyLT_trichotomy p.sortOrder q.sortOrder with h | h | h
  · exact Or.inl (Or.inl h)
  · rcases keyLE_total p.price q.price with hp | hp
    · exact Or.inl (Or.inr ⟨h, hp⟩)
    · exact Or.inr (Or.inr ⟨h.symm, hp⟩)
  · exact Or.inr (Or.inl h)

instance : IsTrans Plan planLE := by
  constructor
  intro p q r hpq hqr
  rcases hpq with h1 | ⟨e1, l1⟩
  · rcases hqr with h2 | ⟨e2, _⟩
    · exact Or.inl (keyLT_trans h1 h2)
    · exact Or.inl (e2 ▸ h1)
  · rcases hqr with h2 | ⟨e2, l2⟩
    · exact Or.inl (e1 ▸ h2)
    · exact Or.inr ⟨e1.trans e2, keyLE_trans l1 l2⟩

/-- What two adjacent records of a sorted listing satisfy: `sortOrder`
non-decreasing, and `price` non-decreasing on a `sortOrder` tie. -/
theorem planLE_elim {p q : Plan} (h : planLE p q) :
    keyLE p.sortOrder q.sortOrder ∧ (p.sortOrder = q.sortOrder → keyLE p.price q.price) := by
  rcases h with h | ⟨e, l⟩
  · exact ⟨keyLE_of_keyLT h, fun e => absurd (e ▸ h) (keyLT_irrefl _)⟩
  · exact ⟨e ▸ keyLE_refl _, fun _ => l⟩

/-! ### Store lemmas -/

theorem findPlan_id {store : Store} {id : String} {p : Plan}
    (h : findPlan store id = some p) : p.id = id := by
  have := List.find?_some h
  simpa using this

theorem findPlan_saveDoc {store : Store} {id : String} {p p2 : Plan}
    (hid : p2.id = id) (h : findPlan store id = some p) :
    findPlan (saveDoc store p2) id = some p2 := by
  induction store with
  | nil => simp [findPlan] at h
  | cons q rest ih =>
    by_cases hq : q.id = id
    · unfold saveDoc
      rw [if_pos (by simp [hid, hq])]
      simp [findPlan, List.find?, hid]
    · unfold saveDoc
      rw [if_neg (by simp [hid, hq])]
      unfold findPlan at h ⊢
      rw [List.find?_cons_of_neg _ (by simp [hq])] at h ⊢
      exact ih h

/-! ### Handler behaviour on the happy paths -/

theorem createPlan_success (store : Store) (b : PlanBody) (now : Nat) (newId : String)
    (hname : nameTruthy b.name = true) (hprice : b.price.isSome = true)
    (hival : validIntervals.contains (strOr b.interval "monthly") = true) :
    createPlan store b now newId =
      (⟨201, true, some (.plan (mkCreated b now newId)), none, none, none⟩,
        store ++ [mkCreated b now newId]) := by
  obtain ⟨v, hv⟩ := Option.isSome_iff_exists.mp hprice
  unfold createPlan
  rw [if_neg (by simp [hname, hv]), if_neg (by rw [hival]; simp)]

theorem updatePlan_success (store : Store) (id : String) (b : PlanBody) (now : Nat)
    (p : Plan) (hv : isValidObjectId id = true) (hf : findPlan store id = some p) :
    updatePlan store id b now =
      (⟨200, true, some (.plan (applyUpdate p b now)), none, none, none⟩,
        saveDoc store (applyUpdate p b now)) := by
  unfold updatePlan findById
  rw [if_pos hv, hf]

theorem deletePlan_success (store : Store) (id : String) (p : Plan)
    (hv : isValidObjectId id = true) (hf : findPlan store id = some p)
    (hvd : validDoc { p with isActive := some false } = true) :
    deletePlan store id =
      (⟨200, true, none, none, some "Plan deleted successfully", none⟩,
        saveDoc store { p with isActive := some false }) := by
  have hfb : findById store id = .ok (some p) := by
    unfold findById
    rw [if_pos hv, hf]
  unfold deletePlan
  rw [hfb]
  exact if_pos hvd

theorem getPlanById_found (store : Store) (id : String) (p : Plan)
    (hv : isValidObjectId id = true) (hf : findPlan store id = some p) :
    getPlanById store id = ⟨200, true, some (.plan p), none, none, none⟩ := by
  unfold getPlanById findById
  rw [if_pos hv, hf]

theorem getPlanFeatures_found (store : Store) (id : String) (p : Plan)
    (hv : isValidObjectId id = true) (hf : findPlan store id = some p) :
    getPlanFeatures store id =
      ⟨200, true, some (.featuresLimits p.features p.limits), none, none, none⟩ := by
  unfold getPlanFeatures findById
  rw [if_pos hv, hf]

/-! ### The list filter, read logically -/

theorem bool_guard_iff (cond check : Bool) :
    ((!cond || check) = true) ↔ (cond = true → check = true) := by
  cases cond <;> simp

theorem listFilter_eq_true_iff (active popular : Option String) (q : Plan) :
    listFilter active popular q = true ↔
      ((active = some "true" → q.isActive = some true) ∧
       (popular = some "true" → q.isPopular = some true)) := by
  unfold listFilter
  rw [Bool.and_eq_true, bool_guard_iff, bool_guard_iff]
  simp [beq_iff_eq]

/-! ### Concrete fixtures for witnesses and counterexamples -/

/-- A 24-character hexadecimal ObjectId. -/
def demoId : String := "507f1f77bcf86cd799439011"

/-- A stored plan named "Pro" with price 100. -/
def proPlan : Plan :=
  ⟨demoId, some "Pro", none, some 100, some "USD", some "monthly", some [],
   some Limits.defaults, none, none, some true, some false, some 0, 0, 0⟩

/-- An update body that supplies only `price: 50`. -/
def priceOnlyBody : PlanBody := { PlanBody.empty with price := some 50 }

/-- A create body supplying only the required fields. -/
def basicBody : PlanBody :=
  { PlanBody.empty with name := some "Basic", price := some 10 }

/-- A create body that also tries to supply `isActive: false` (and a price of
zero, which is a valid price). -/
def inactiveBody : PlanBody :=
  { PlanBody.empty with name := some "Ghost", price := some 0, isActive := some false }

/-- A create body whose `name` is present but empty, with a defined price. -/
def emptyNameBody : PlanBody :=
  { PlanBody.empty with name := some "", price := some 5 }

/-- An update body that keeps `name`/`price` but sets `interval` to
"weekly", a value outside the schema enum — `findByIdAndUpdate` stores it
anyway since it runs no validators. -/
def weeklyBody : PlanBody :=
  { PlanBody.empty with name := some "Pro", price := some 100, interval := some "weekly" }

/-! ### The claims -/

/-- Claim C1 (confirmed): on an existing record, PUT writes every
request-settable Plan field key with exactly the request body's value for
that key, so every such key absent from the body is written as unset in the
stored record — full-replace semantics per field key, not a partial merge.
(`createdAt` is not part of the update document the handler builds, and
`updatedAt` is set to the mutation time; neither is settable from the body.)
In particular `Update(id, {price: 50})` on a record that previously had
`name: "Pro"` leaves `name` unset — see the witness. -/
theorem update_replaces_every_field_key (store : Store) (id : String)
    (b : PlanBody) (now : Nat) (p : Plan)
    (hv : isValidObjectId id = true) (hf : findPlan store id = some p) :
    (updatePlan store id b now).1.status = 200 ∧
    ∃ p2, findPlan (updatePlan store id b now).2 id = some p2 ∧
      p2.name = b.name ∧ p2.description = b.description ∧ p2.price = b.price ∧
      p2.currency = b.currency ∧ p2.interval = b.interval ∧
      p2.features = b.features ∧ p2.limits = b.limits ∧
      p2.stripePriceId = b.stripePriceId ∧ p2.stripeProductId = b.stripeProductId ∧
      p2.isActive = b.isActive ∧ p2.isPopular = b.isPopular ∧
      p2.sortOrder = b.sortOrder := by
  rw [updatePlan_success store id b now p hv hf]
  refine ⟨rfl, applyUpdate p b now, ?_,
    rfl, rfl, rfl, rfl, rfl, rfl, rfl, rfl, rfl, rfl, rfl, rfl⟩
  have hid0 : p.id = id := findPlan_id hf
  have hid : (applyUpdate p b now).id = id := hid0
  exact findPlan_saveDoc hid hf

/-- Witness for C1: updating the stored "Pro" plan with a body that supplies
only `price: 50` stores a record whose `name` is unset. -/
theorem update_replaces_every_field_key_witness :
    isValidObjectId demoId = true ∧ findPlan [proPlan] demoId = some proPlan ∧
    (updatePlan [proPlan] demoId priceOnlyBody 5).1.status = 200 ∧
    ∃ p2, findPlan (updatePlan [proPlan] demoId priceOnlyBody 5).2 demoId = some p2 ∧
      p2.name = none ∧ p2.price = some 50 := by
  have h1 : isValidObjectId demoId = true := by decide
  have h2 : findPlan [proPlan] demoId = some proPlan := by decide
  obtain ⟨hs, p2, hfind, hname, _, hprice, _⟩ :=
    update_replaces_every_field_key [proPlan] demoId priceOnlyBody 5 proPlan h1 h2
  exact ⟨h1, h2, hs, p2, hfind, hname, hprice⟩

/-- Claim C3 counterexample: `GetById` with the malformed identifier "oops"
answers 500 ("Failed to fetch plan"), not 404 — `findById` throws a
`CastError` on an id that does not cast to an ObjectId, and the handler's
`catch` (lines 132-138) maps it to 500. -/
theorem malformed_id_counterexample :
    getPlanById [] "oops" =
      ⟨500, false, none, none, none, some "Failed to fetch plan"⟩ := by
  rfl

/-- Claim C3 (corrected): for every syntactically invalid identifier,
GetById, Update, SoftDelete and GetFeatures respond 500 (the cast error is
handled by each handler's generic catch), not 404; the store is untouched.
404 is reserved for well-formed identifiers that match no record. -/
theorem malformed_id_gives_500 (store : Store) (id : String) (b : PlanBody)
    (now : Nat) (hv : isValidObjectId id = false) :
    (getPlanById store id).status = 500 ∧
    (updatePlan store id b now).1.status = 500 ∧ (updatePlan store id b now).2 = store ∧
    (deletePlan store id).1.status = 500 ∧ (deletePlan store id).2 = store ∧
    (getPlanFeatures store id).status = 500 ∧
    (getPlanById store id).status ≠ 404 := by
  have hfb : findById store id = .error () := by
    unfold findById
    rw [if_neg (by simp [hv])]
  unfold getPlanById updatePlan deletePlan getPlanFeatures
  rw [hfb]
  exact ⟨rfl, rfl, rfl, rfl, rfl, rfl, by decide⟩

/-- Witness for the corrected C3 at the malformed identifier "oops". -/
theorem malformed_id_gives_500_witness :
    isValidObjectId "oops" = false ∧
    (getPlanById [] "oops").status = 500 ∧
    (updatePlan [] "oops" priceOnlyBody 0).1.status = 500 ∧
    (deletePlan [] "oops").1.status = 500 ∧
    (getPlanFeatures [] "oops").status = 500 := by
  have h : isValidObjectId "oops" = false := by decide
  obtain ⟨h1, h2, _, h3, _, h4, _⟩ := malformed_id_gives_500 [] "oops" priceOnlyBody 0 h
  exact ⟨h, h1, h2, h3, h4⟩

/-- Claim C4 counterexample: the soft-delete handler (lines 253-279) flips
`isActive` and saves without touching `updatedAt` (the schema has no
timestamps option), so after a successful soft-delete of the "Pro" record —
whose last mutation wrote `updatedAt = 0` — the stored `updatedAt` still
reads 0, however late the delete runs; the handler reads no clock at all.
So `updatedAt` does not equal the wall-clock time of a soft-delete mutation
performed at any later instant. -/
theorem soft_delete_keeps_updatedAt_cex :
    (deletePlan [proPlan] demoId).1.status = 200 ∧
    findPlan (deletePlan [proPlan] demoId).2 demoId =
      some { proPlan with isActive := some false } ∧
    ({ proPlan with isActive := some false } : Plan).updatedAt = 0 :=
  ⟨rfl, rfl, rfl⟩

/-- Claim C4 (corrected): create sets both timestamps to the mutation time
and update sets `updatedAt` to the mutation time, but a successful
soft-delete (one whose `plan.save()` passes document validation) leaves
`updatedAt` exactly as it was, while still flipping `isActive`. -/
theorem updatedAt_set_on_create_update_only (store : Store) (b : PlanBody)
    (now nowU : Nat) (newId id : String) (p : Plan)
    (hname : nameTruthy b.name = true) (hprice : b.price.isSome = true)
    (hival : validIntervals.contains (strOr b.interval "monthly") = true)
    (hv : isValidObjectId id = true) (hf : findPlan store id = some p)
    (hvd : validDoc { p with isActive := some false } = true) :
    (∃ q, (createPlan store b now newId).1.data = some (.plan q) ∧
      q.createdAt = now ∧ q.updatedAt = now) ∧
    (∃ q, findPlan (updatePlan store id b nowU).2 id = some q ∧ q.updatedAt = nowU) ∧
    (∃ q, findPlan (deletePlan store id).2 id = some q ∧
      q.isActive = some false ∧ q.updatedAt = p.updatedAt) := by
  refine ⟨?_, ?_, ?_⟩
  · rw [createPlan_success store b now newId hname hprice hival]
    exact ⟨mkCreated b now newId, rfl, rfl, rfl⟩
  · rw [updatePlan_success store id b nowU p hv hf]
    have hid0 : p.id = id := findPlan_id hf
    have hid : (applyUpdate p b nowU).id = id := hid0
    exact ⟨applyUpdate p b nowU, findPlan_saveDoc hid hf, rfl⟩
  · rw [deletePlan_success store id p hv hf hvd]
    have hid0 : p.id = id := findPlan_id hf
    have hid : ({ p with isActive := some false } : Plan).id = id := hid0
    exact ⟨{ p with isActive := some false }, findPlan_saveDoc hid hf, rfl, rfl⟩

/-- Witness for the corrected C4: create at time 7, update at time 8,
soft-delete of the "Pro" record (previous `updatedAt` 0). -/
theorem updatedAt_set_on_create_update_only_witness :
    nameTruthy basicBody.name = true ∧ basicBody.price.isSome = true ∧
    validIntervals.contains (strOr basicBody.interval "monthly") = true ∧
    isValidObjectId demoId = true ∧ findPlan [proPlan] demoId = some proPlan ∧
    (∃ q, (createPlan [proPlan] basicBody 7 "n1").1.data = some (.plan q) ∧
      q.createdAt = 7 ∧ q.updatedAt = 7) ∧
    (∃ q, findPlan (updatePlan [proPlan] demoId basicBody 8).2 demoId = some q ∧
      q.updatedAt = 8) ∧
    (∃ q, findPlan (deletePlan [proPlan] demoId).2 demoId = some q ∧
      q.isActive = some false ∧ q.updatedAt = proPlan.updatedAt) := by
  have h1 : nameTruthy basicBody.name = true := by decide
  have h2 : basicBody.price.isSome = true := by decide
  have h3 : validIntervals.contains (strOr basicBody.interval "monthly") = true := by decide
  have h4 : isValidObjectId demoId = true := by decide
  have h5 : findPlan [proPlan] demoId = some proPlan := by decide
  have h6 : validDoc { proPlan with isActive := some false } = true := by decide
  obtain ⟨hc, hu, hd⟩ := updatedAt_set_on_create_update_only [proPlan] basicBody 7 8 "n1"
    demoId proPlan h1 h2 h3 h4 h5 h6
  exact ⟨h1, h2, h3, h4, h5, hc, hu, hd⟩

/-- Claim C2 (confirmed): for every valid create payload (truthy `name`,
defined `price`, `interval` absent or in the enum), the created record keeps
the supplied `name` and `price` and every omitted optional field carries its
documented default: currency "USD", interval "monthly", features empty,
limits with the six subfields defaulted independently, isActive true,
isPopular false, sortOrder 0; the record is appended to the collection. -/
theorem create_applies_documented_defaults (store : Store) (b : PlanBody)
    (now : Nat) (newId : String)
    (hname : nameTruthy b.name = true) (hprice : b.price.isSome = true)
    (hival : validIntervals.contains (strOr b.interval "monthly") = true) :
    (createPlan store b now newId).1.status = 201 ∧
    ∃ p, (createPlan store b now newId).1.data = some (.plan p) ∧
      (createPlan store b now newId).2 = store ++ [p] ∧
      p.name = b.name ∧ p.price = b.price ∧
      (b.currency = none → p.currency = some "USD") ∧
      (b.interval = none → p.interval = some "monthly") ∧
      (b.features = none → p.features = some []) ∧
      (b.limits = none → p.limits = some Limits.defaults) ∧
      p.isActive = some true ∧
      (b.isPopular = none → p.isPopular = some false) ∧
      (b.sortOrder = none → p.sortOrder = some 0) ∧
      (∀ l, b.limits = some l → p.limits = some (Limits.applyDefaults l) ∧
        (l.franchises = none → (Limits.applyDefaults l).franchises = some 1) ∧
        (l.forms = none → (Limits.applyDefaults l).forms = some 5) ∧
        (l.submissions = none → (Limits.applyDefaults l).submissions = some 100) ∧
        (l.staff = none → (Limits.applyDefaults l).staff = some 5) ∧
        (l.storage = none → (Limits.applyDefaults l).storage = some 1024) ∧
        (l.apiCalls = none → (Limits.applyDefaults l).apiCalls = some 1000)) := by
  rw [createPlan_success store b now newId hname hprice hival]
  refine ⟨rfl, mkCreated b now newId, rfl, rfl, rfl, rfl, ?_, ?_, ?_, ?_, rfl, ?_, ?_, ?_⟩
  · intro h
    show some (strOr b.currency "USD") = some "USD"
    rw [h]
    rfl
  · intro h
    show some (strOr b.interval "monthly") = some "monthly"
    rw [h]
    rfl
  · intro h
    show some (b.features.getD []) = some []
    rw [h]
    rfl
  · intro h
    show some (Limits.applyDefaults (b.limits.getD Limits.empty)) = some Limits.defaults
    rw [h]
    rfl
  · intro h
    show some (b.isPopular.getD false) = some false
    rw [h]
    rfl
  · intro h
    show some (b.sortOrder.getD 0) = some 0
    rw [h]
    rfl
  · intro l h
    refine ⟨?_, fun h2 => ?_, fun h2 => ?_, fun h2 => ?_, fun h2 => ?_,
      fun h2 => ?_, fun h2 => ?_⟩
    · show some (Limits.applyDefaults (b.limits.getD Limits.empty)) =
        some (Limits.applyDefaults l)
      rw [h]
      rfl
    · show some (l.franchises.getD 1) = some 1
      rw [h2]
      rfl
    · show some (l.forms.getD 5) = some 5
      rw [h2]
      rfl
    · show some (l.submissions.getD 100) = some 100
      rw [h2]
      rfl
    · show some (l.staff.getD 5) = some 5
      rw [h2]
      rfl
    · show some (l.storage.getD 1024) = some 1024
      rw [h2]
      rfl
    · show some (l.apiCalls.getD 1000) = some 1000
      rw [h2]
      rfl

/-- Witness for C2: creating from the body supplying only name "Basic" and
price 10 yields 201 and a record carrying every documented default. -/
theorem create_applies_documented_defaults_witness :
    nameTruthy basicBody.name = true ∧ basicBody.price.isSome = true ∧
    validIntervals.contains (strOr basicBody.interval "monthly") = true ∧
    (createPlan [] basicBody 0 "n2").1.status = 201 ∧
    ∃ p, (createPlan [] basicBody 0 "n2").1.data = some (.plan p) ∧
      p.name = some "Basic" ∧ p.price = some 10 ∧ p.currency = some "USD" ∧
      p.interval = some "monthly" ∧ p.features = some [] ∧
      p.limits = some Limits.defaults ∧ p.isActive = some true ∧
      p.isPopular = some false ∧ p.sortOrder = some 0 := by
  have h1 : nameTruthy basicBody.name = true := by decide
  have h2 : basicBody.price.isSome = true := by decide
  have h3 : validIntervals.contains (strOr basicBody.interval "monthly") = true := by decide
  obtain ⟨hs, p, hdata, _, hnm, hpr, hcur, hint, hfeat, hlim, hact, hpop, hsort, _⟩ :=
    create_applies_documented_defaults [] basicBody 0 "n2" h1 h2 h3
  exact ⟨h1, h2, h3, hs, p, hdata, hnm, hpr, hcur rfl, hint rfl, hfeat rfl,
    hlim rfl, hact, hpop rfl, hsort rfl⟩

/-- The 400 branch of the POST handler fires exactly when `name` is absent or
empty (JS-falsy) or `price` is undefined. -/
theorem reject_cond_iff (b : PlanBody) :
    (!nameTruthy b.name || b.price.isNone) = true ↔
      (b.name = none ∨ b.name = some "" ∨ b.price = none) := by
  rcases hn : b.name with _ | s <;> rcases hp : b.price with _ | v <;>
    simp [nameTruthy, hn, hp]

/-- Claim C6 counterexample: the payload with `name` the empty string and
`price` 5 has `name` present and `price` defined, yet the handler's `!name`
test (line 158) is true for the empty string, so create answers 400 and
persists nothing — "rejects exactly the payloads where name is absent or
price is undefined" is false as stated. -/
theorem create_rejects_empty_name_cex :
    emptyNameBody.name = some "" ∧ emptyNameBody.price = some 5 ∧
    createPlan [] emptyNameBody 0 "n4" =
      (⟨400, false, none, none, none, some "Plan name and price are required"⟩, []) :=
  ⟨rfl, rfl, rfl⟩

/-- Claim C6 (corrected): create answers 400 exactly when `name` is absent or
empty (`!name` is true for the empty string, a JS-falsy value) or `price` is
undefined — zero is a valid price — and on that rejection it emits the
descriptive message and persists nothing (the collection is unchanged). -/
theorem create_validation_boundary (store : Store) (b : PlanBody) (now : Nat)
    (newId : String) :
    ((createPlan store b now newId).1.status = 400 ↔
      (b.name = none ∨ b.name = some "" ∨ b.price = none)) ∧
    ((createPlan store b now newId).1.status = 400 →
      (createPlan store b now newId).1.error = some "Plan name and price are required" ∧
      (createPlan store b now newId).2 = store) := by
  have hiff := reject_cond_iff b
  unfold createPlan
  by_cases h : (!nameTruthy b.name || b.price.isNone) = true
  · rw [if_pos h]
    exact ⟨iff_of_true rfl (hiff.mp h), fun _ => ⟨rfl, rfl⟩⟩
  · rw [if_neg h]
    by_cases h2 : (!(validIntervals.contains (strOr b.interval "monthly"))) = true
    · rw [if_pos h2]
      exact ⟨iff_of_false (by simp) (fun hd => h (hiff.mpr hd)),
        fun h400 => absurd h400 (by simp)⟩
    · rw [if_neg h2]
      exact ⟨iff_of_false (by simp) (fun hd => h (hiff.mpr hd)),
        fun h400 => absurd h400 (by simp)⟩

/-- Claim C10 (confirmed): the POST handler's destructuring (lines 144-156)
does not read `isActive` and `new Plan` is given no `isActive`, so the schema
default applies: every record a create persists has `isActive = true`,
whatever the request body carried — a plan cannot be created soft-deleted. -/
theorem create_ignores_supplied_isActive (store : Store) (b : PlanBody)
    (now : Nat) (newId : String)
    (hname : nameTruthy b.name = true) (hprice : b.price.isSome = true)
    (hival : validIntervals.contains (strOr b.interval "monthly") = true) :
    ∃ p, (createPlan store b now newId).1.data = some (.plan p) ∧
      (createPlan store b now newId).2 = store ++ [p] ∧ p.isActive = some true := by
  rw [createPlan_success store b now newId hname hprice hival]
  exact ⟨mkCreated b now newId, rfl, rfl, rfl⟩

/-- Witness for C10: a body that supplies `isActive: false` (and the valid
price zero) still yields a record with `isActive = true`. -/
theorem create_ignores_supplied_isActive_witness :
    inactiveBody.isActive = some false ∧
    nameTruthy inactiveBody.name = true ∧ inactiveBody.price.isSome = true ∧
    validIntervals.contains (strOr inactiveBody.interval "monthly") = true ∧
    ∃ p, (createPlan [] inactiveBody 0 "n3").1.data = some (.plan p) ∧
      (createPlan [] inactiveBody 0 "n3").2 = [] ++ [p] ∧ p.isActive = some true := by
  have h1 : nameTruthy inactiveBody.name = true := by decide
  have h2 : inactiveBody.price.isSome = true := by decide
  have h3 : validIntervals.contains (strOr inactiveBody.interval "monthly") = true := by decide
  exact ⟨rfl, h1, h2, h3, create_ignores_supplied_isActive [] inactiveBody 0 "n3" h1 h2 h3⟩

/-- Any member of a successful listing's payload passed the query filter. -/
theorem mem_listPlans_filter {store : Store} {active popular : Option String}
    {l : List Plan} (h : (listPlans store active popular).data = some (.plans l))
    {q : Plan} (hq : q ∈ l) : listFilter active popular q = true := by
  unfold listPlans at h
  simp only [Option.some.injEq, Payload.plans.injEq] at h
  subst h
  exact (List.mem_filter.mp ((List.perm_insertionSort planLE _).mem_iff.mp hq)).2

/-- Claim C5 counterexample: soft-delete of an existing record does not
always succeed. Update the stored "Pro" plan with `interval: "weekly"` — the
PUT handler runs no validators, so the non-enum interval is stored and
answered 200 — then soft-delete that record: `plan.save()` in the delete
handler validates the whole document, the enum check fails, and the handler
answers 500 with nothing written (the record keeps `isActive = true`). -/
theorem soft_delete_can_fail_cex :
    (updatePlan [proPlan] demoId weeklyBody 1).1.status = 200 ∧
    findPlan (updatePlan [proPlan] demoId weeklyBody 1).2 demoId =
      some (applyUpdate proPlan weeklyBody 1) ∧
    (applyUpdate proPlan weeklyBody 1).interval = some "weekly" ∧
    (deletePlan (updatePlan [proPlan] demoId weeklyBody 1).2 demoId).1.status = 500 ∧
    (deletePlan (updatePlan [proPlan] demoId weeklyBody 1).2 demoId).2 =
      (updatePlan [proPlan] demoId weeklyBody 1).2 :=
  ⟨rfl, rfl, rfl, rfl, rfl⟩

/-- Claim C5 (corrected): soft-deleting an existing record whose document
passes save-time validation (required `name`/`price` set, `interval` unset
or in the enum — every record the service itself created and never corrupted
through the validator-skipping PUT) succeeds (200, success) and stores the
record with `isActive = false`; a second soft-delete of the same id succeeds
again, with `isActive = false` after each call; afterwards GetById still
returns the (soft-deleted) record, while no listing filtered with
`active=true` contains it. For a record that fails validation, the delete
answers 500 and writes nothing — see the counterexample. -/
theorem soft_delete_idempotent_and_hidden (store : Store) (id : String) (p : Plan)
    (hv : isValidObjectId id = true) (hf : findPlan store id = some p)
    (hvd : validDoc { p with isActive := some false } = true) :
    (deletePlan store id).1.status = 200 ∧ (deletePlan store id).1.success = true ∧
    ∃ p1, findPlan (deletePlan store id).2 id = some p1 ∧ p1.isActive = some false ∧
      (deletePlan (deletePlan store id).2 id).1.status = 200 ∧
      (deletePlan (deletePlan store id).2 id).1.success = true ∧
      (∃ p2, findPlan (deletePlan (deletePlan store id).2 id).2 id = some p2 ∧
        p2.isActive = some false) ∧
      getPlanById (deletePlan store id).2 id =
        ⟨200, true, some (.plan p1), none, none, none⟩ ∧
      (∀ popular l,
        (listPlans (deletePlan store id).2 (some "true") popular).data = some (.plans l) →
        p1 ∉ l) := by
  have hid0 : p.id = id := findPlan_id hf
  rw [deletePlan_success store id p hv hf hvd]
  have hid1 : ({ p with isActive := some false } : Plan).id = id := hid0
  have hf1 : findPlan (saveDoc store { p with isActive := some false }) id =
      some { p with isActive := some false } := findPlan_saveDoc hid1 hf
  have hvd2 : validDoc
      { { p with isActive := some false } with isActive := some false } = true := hvd
  have hdel2 := deletePlan_success (saveDoc store { p with isActive := some false }) id
    { p with isActive := some false } hv hf1 hvd2
  refine ⟨rfl, rfl, { p with isActive := some false }, hf1, rfl, ?_, ?_, ?_, ?_, ?_⟩
  · rw [hdel2]
  · rw [hdel2]
  · rw [hdel2]
    have hid2 :
        ({ { p with isActive := some false } with isActive := some false } : Plan).id = id :=
      hid0
    exact ⟨{ { p with isActive := some false } with isActive := some false },
      findPlan_saveDoc hid2 hf1, rfl⟩
  · exact getPlanById_found _ id _ hv hf1
  · intro popular l hdata hmem
    have hfilt := mem_listPlans_filter hdata hmem
    rw [listFilter_eq_true_iff] at hfilt
    have hcontra : ({ p with isActive := some false } : Plan).isActive = some true :=
      hfilt.1 rfl
    simp at hcontra

/-- Witness for the corrected C5 on the stored "Pro" plan, whose document
passes save-time validation. -/
theorem soft_delete_idempotent_and_hidden_witness :
    isValidObjectId demoId = true ∧ findPlan [proPlan] demoId = some proPlan ∧
    validDoc { proPlan with isActive := some false } = true ∧
    (deletePlan [proPlan] demoId).1.status = 200 ∧
    (deletePlan [proPlan] demoId).1.success = true ∧
    ∃ p1, findPlan (deletePlan [proPlan] demoId).2 demoId = some p1 ∧
      p1.isActive = some false ∧
      (deletePlan (deletePlan [proPlan] demoId).2 demoId).1.status = 200 ∧
      (∀ l, (listPlans (deletePlan [proPlan] demoId).2 (some "true") none).data
          = some (.plans l) → p1 ∉ l) := by
  have h1 : isValidObjectId demoId = true := by decide
  have h2 : findPlan [proPlan] demoId = some proPlan := by decide
  have h3 : validDoc { proPlan with isActive := some false } = true := by decide
  obtain ⟨hs, hsc, p1, hfind, hact, hs2, _, _, _, hlist⟩ :=
    soft_delete_idempotent_and_hidden [proPlan] demoId proPlan h1 h2 h3
  exact ⟨h1, h2, h3, hs, hsc, p1, hfind, hact, hs2, hlist none⟩

/-- Claim C7 (confirmed): every listing answers 200 with `success: true` —
in particular an empty result set is not an error — and its payload is
pairwise ordered: `sortOrder` non-decreasing, and among records of equal
`sortOrder` the `price` non-decreasing. -/
theorem list_sorted_by_sortOrder_then_price (store : Store)
    (active popular : Option String) :
    (listPlans store active popular).status = 200 ∧
    (listPlans store active popular).success = true ∧
    ∃ l, (listPlans store active popular).data = some (.plans l) ∧
      l.Pairwise (fun p q => keyLE p.sortOrder q.sortOrder ∧
        (p.sortOrder = q.sortOrder → keyLE p.price q.price)) := by
  refine ⟨rfl, rfl,
    List.insertionSort planLE (store.filter (listFilter active popular)), rfl, ?_⟩
  have hs := List.sorted_insertionSort planLE (store.filter (listFilter active popular))
  exact List.Pairwise.imp (fun h => planLE_elim h) hs

/-- Claim C8 counterexample: the successful soft-delete response for the
stored "Pro" plan has `success: true` but no `data` member — it carries
`message` instead — so "every successful response from every plan operation
is the envelope with a `data` payload" is false as stated (the source
answers `{ success: true, message: ... }` at lines 268-271). -/
theorem delete_success_has_no_data_cex :
    (deletePlan [proPlan] demoId).1.success = true ∧
    (deletePlan [proPlan] demoId).1.data = none ∧
    (deletePlan [proPlan] demoId).1.message = some "Plan deleted successfully" :=
  ⟨rfl, rfl, rfl⟩

/-- Claim C8 (corrected): every successful response carries `success: true`,
and `count` is present exactly for list responses; list, get, create, update
and features responses carry a `data` payload, but the soft-delete success
response — here on a record whose document passes save-time validation, so
the delete does succeed — carries a `message` and no `data`. -/
theorem success_envelope_shapes (store : Store) (id newId : String) (b : PlanBody)
    (now : Nat) (p : Plan) (active popular : Option String)
    (hname : nameTruthy b.name = true) (hprice : b.price.isSome = true)
    (hival : validIntervals.contains (strOr b.interval "monthly") = true)
    (hv : isValidObjectId id = true) (hf : findPlan store id = some p)
    (hvd : validDoc { p with isActive := some false } = true) :
    (∃ l, listPlans store active popular =
      ⟨200, true, some (.plans l), some l.length, none, none⟩) ∧
    getPlanById store id = ⟨200, true, some (.plan p), none, none, none⟩ ∧
    (createPlan store b now newId).1 =
      ⟨201, true, some (.plan (mkCreated b now newId)), none, none, none⟩ ∧
    (updatePlan store id b now).1 =
      ⟨200, true, some (.plan (applyUpdate p b now)), none, none, none⟩ ∧
    (deletePlan store id).1 =
      ⟨200, true, none, none, some "Plan deleted successfully", none⟩ ∧
    getPlanFeatures store id =
      ⟨200, true, some (.featuresLimits p.features p.limits), none, none, none⟩ := by
  refine ⟨⟨List.insertionSort planLE (store.filter (listFilter active popular)), rfl⟩,
    getPlanById_found store id p hv hf, ?_, ?_, ?_,
    getPlanFeatures_found store id p hv hf⟩
  · rw [createPlan_success store b now newId hname hprice hival]
  · rw [updatePlan_success store id b now p hv hf]
  · rw [deletePlan_success store id p hv hf hvd]

/-- Witness for the corrected C8 on the stored "Pro" plan and the "Basic"
create body. -/
theorem success_envelope_shapes_witness :
    nameTruthy basicBody.name = true ∧ basicBody.price.isSome = true ∧
    validIntervals.contains (strOr basicBody.interval "monthly") = true ∧
    isValidObjectId demoId = true ∧ findPlan [proPlan] demoId = some proPlan ∧
    ((∃ l, listPlans [proPlan] none none =
      ⟨200, true, some (.plans l), some l.length, none, none⟩) ∧
    getPlanById [proPlan] demoId = ⟨200, true, some (.plan proPlan), none, none, none⟩ ∧
    (createPlan [proPlan] basicBody 3 "n5").1 =
      ⟨201, true, some (.plan (mkCreated basicBody 3 "n5")), none, none, none⟩ ∧
    (updatePlan [proPlan] demoId basicBody 3).1 =
      ⟨200, true, some (.plan (applyUpdate proPlan basicBody 3)), none, none, none⟩ ∧
    (deletePlan [proPlan] demoId).1 =
      ⟨200, true, none, none, some "Plan deleted successfully", none⟩ ∧
    getPlanFeatures [proPlan] demoId =
      ⟨200, true, some (.featuresLimits proPlan.features proPlan.limits),
        none, none, none⟩) := by
  have h1 : nameTruthy basicBody.name = true := by decide
  have h2 : basicBody.price.isSome = true := by decide
  have h3 : validIntervals.contains (strOr basicBody.interval "monthly") = true := by decide
  have h4 : isValidObjectId demoId = true := by decide
  have h5 : findPlan [proPlan] demoId = some proPlan := by decide
  have h6 : validDoc { proPlan with isActive := some false } = true := by decide
  exact ⟨h1, h2, h3, h4, h5,
    success_envelope_shapes [proPlan] demoId "n5" basicBody 3 proPlan none none
      h1 h2 h3 h4 h5 h6⟩

/-- Claim C9 (confirmed): a listing filter applies exactly when its query
parameter is the string "true": the payload contains a stored record iff the
record satisfies `isActive = true` when `active="true"` and `isPopular =
true` when `popular="true"`; for any other or absent parameter value —
including "false" — the corresponding condition is vacuous, so `active=false`
returns active and inactive plans alike. -/
theorem list_filters_only_on_string_true (store : Store)
    (active popular : Option String) :
    ∃ l, (listPlans store active popular).data = some (.plans l) ∧
      ∀ q, q ∈ l ↔ (q ∈ store ∧ (active = some "true" → q.isActive = some true) ∧
        (popular = some "true" → q.isPopular = some true)) := by
  refine ⟨List.insertionSort planLE (store.filter (listFilter active popular)),
    rfl, fun q => ?_⟩
  rw [(List.perm_insertionSort planLE _).mem_iff, List.mem_filter,
    listFilter_eq_true_iff]

end KeephyPlans
